import Mathlib

/-
  Verification of the fio-metrics-parser extraction core
  (src/fio_metrics.py) against its natural-language specification.

  The Python module is shallowly embedded:
  - JSON documents become the inductive type JVal (null, booleans,
    numbers, strings, arrays, objects).
  - Python numbers (ints and floats alike) are modelled as exact
    fractions: the type PyNum carries an integer numerator and an
    integer denominator (positive at every construction site), kept
    unnormalized so that all arithmetic is plain integer arithmetic
    and closed computations reduce inside the kernel. PyNum.val maps
    a fraction to the rational number it denotes. IEEE-754 rounding
    of Python floats is not modelled; all decimal literals appearing
    in the claims are treated as the exact values they print as, and
    none of the claims sits on a representation boundary where the
    binary float and the exact value round differently.
  - Fallible Python code becomes Except PyErr; the error constructors
    mirror the Python exception classes that the code can raise.
  - Dictionary access, truthiness, the in operator, iteration and
    arithmetic coercions are modelled by jget, jtruthy, jhasKey,
    jelems and asNum, restricted to the behaviours parsed-JSON values
    can exhibit (numeric arithmetic only; a non-numeric operand of an
    arithmetic operation gives the type error, as in Python; the
    string and sequence overloads of the plus operator are not
    reachable from any claim and are not modelled).
-/

namespace FioMetrics

/-- An exact fraction standing for a Python number: numerator over
denominator, not normalized. Every value the embedded code builds has
a positive denominator; lemmas about ordering state that hypothesis
explicitly. -/
structure PyNum where
  num : ℤ
  den : ℤ

/-- The rational value a fraction denotes. -/
def PyNum.val (x : PyNum) : ℚ := (x.num : ℚ) / (x.den : ℚ)

/-- Embedding of an integer as a Python number. -/
def PyNum.int (n : ℤ) : PyNum := ⟨n, 1⟩

/-- Python addition on numbers. -/
def PyNum.add (x y : PyNum) : PyNum :=
  ⟨x.num * y.den + y.num * x.den, x.den * y.den⟩

/-- Python multiplication on numbers. -/
def PyNum.mul (x y : PyNum) : PyNum := ⟨x.num * y.num, x.den * y.den⟩

/-- Python equality comparison of a number with zero (true exactly
when the value is zero, for a positive denominator). -/
def PyNum.isZero (x : PyNum) : Bool := x.num == 0

/-- The value divided by 1000, as in the millisecond-to-second
conversions on lines 197-198. -/
def PyNum.div1000 (x : PyNum) : PyNum := ⟨x.num, x.den * 1000⟩

/-- Mathematical floor of the value (for a positive denominator,
Int.ediv is floor division). Python floor division and math.floor
compute this. -/
def PyNum.floor (x : PyNum) : ℤ := x.num / x.den

/-- Truncation of the value toward zero, the behaviour of the Python
int constructor on a number. -/
def PyNum.trunc (x : PyNum) : ℤ := Int.tdiv x.num x.den

/-- A parsed JSON value, the input domain of the extraction core. -/
inductive JVal where
  | null : JVal
  | bool (b : Bool) : JVal
  | num (q : PyNum) : JVal
  | str (s : String) : JVal
  | arr (elems : List JVal) : JVal
  | obj (fields : List (String × JVal)) : JVal

/-- Errors the embedded code can raise, mirroring the Python exception
classes: KeyError, TypeError, ValueError and fio_metrics.NoValuesError. -/
inductive PyErr where
  | keyError (key : String) : PyErr
  | typeError (msg : String) : PyErr
  | valueError (msg : String) : PyErr
  | noValuesError (msg : String) : PyErr

/-- Key constant, lines 16-34 of fio_metrics.py. -/
def JOBNAME : String := "jobname"

/-- Key constant for the report-wide option block. -/
def GLOBAL_OPTS : String := "global options"

/-- Key constant for the job list. -/
def JOBS : String := "jobs"

/-- Key constant for the per-job option block. -/
def JOB_OPTS : String := "job options"

/-- Key constant for the file-size option. -/
def FILESIZE : String := "filesize"

/-- Key constant for the thread-count option. -/
def NUMJOBS : String := "numjobs"

/-- Key constant for the emitted thread-count field. -/
def THREADS : String := "num_threads"

/-- Key constant for the report timestamp. -/
def TIMESTAMP_MS : String := "timestamp_ms"

/-- Key constant for the measured runtime. -/
def RUNTIME : String := "runtime"

/-- Key constant for the ramp-up option. -/
def RAMPTIME : String := "ramp_time"

/-- Key constant for the read section. -/
def READ : String := "read"

/-- Key constant for the IOPS metric. -/
def IOPS : String := "iops"

/-- Key constant for the bandwidth metric. -/
def BW : String := "bw"

/-- Key constant for the latency block. -/
def LAT : String := "lat_ns"

/-- Key constant for the minimum latency. -/
def MIN : String := "min"

/-- Key constant for the maximum latency. -/
def MAX : String := "max"

/-- Key constant for the mean latency. -/
def MEAN : String := "mean"

/-- FILESIZE_CONVERSION, lines 36-48: multipliers taking a file-size
unit to kilobytes (the b entry is the fraction 1/1000, written 0.001
in the source). -/
def FILESIZE_CONVERSION : List (String × PyNum) :=
  [("b", ⟨1, 1000⟩), ("k", ⟨1, 1⟩), ("kb", ⟨1, 1⟩),
   ("m", ⟨10^3, 1⟩), ("mb", ⟨10^3, 1⟩),
   ("g", ⟨10^6, 1⟩), ("gb", ⟨10^6, 1⟩),
   ("t", ⟨10^9, 1⟩), ("tb", ⟨10^9, 1⟩),
   ("p", ⟨10^12, 1⟩), ("pb", ⟨10^12, 1⟩)]

/-- RAMPTIME_CONVERSION, lines 50-57: multipliers taking a duration
unit to milliseconds (the us entry is the fraction 1/1000, written
10**(-3) in the source). -/
def RAMPTIME_CONVERSION : List (String × PyNum) :=
  [("us", ⟨1, 1000⟩), ("ms", ⟨1, 1⟩), ("s", ⟨1000, 1⟩),
   ("m", ⟨60*1000, 1⟩), ("h", ⟨3600*1000, 1⟩),
   ("d", ⟨24*3600*1000, 1⟩)]

/-- Python truthiness of a JSON value: None, False, zero, the empty
string, the empty list and the empty dict are falsy. -/
def jtruthy : JVal → Bool
  | .null => false
  | .bool b => b
  | .num q => !q.isZero
  | .str s => !(s == "")
  | .arr xs => !xs.isEmpty
  | .obj fs => !fs.isEmpty

/-- Negation of Python truthiness, modelling the not operator. -/
def jfalsy (v : JVal) : Bool := !(jtruthy v)

/-- Subscripting a JSON value with a string key, modelling d[key]:
a KeyError on a dict without the key, a TypeError on anything that is
not a dict. -/
def jget (v : JVal) (key : String) : Except PyErr JVal :=
  match v with
  | .obj fs =>
    match fs.lookup key with
    | some x => .ok x
    | none => .error (.keyError key)
  | _ => .error (.typeError "value is not subscriptable with a string")

/-- Python containment test key in v for a string key: key membership
on a dict, element membership on a list, substring test on a string,
TypeError otherwise. -/
def jhasKey (v : JVal) (key : String) : Except PyErr Bool :=
  match v with
  | .obj fs => .ok (fs.any (fun p => p.1 == key))
  | .arr xs => .ok (xs.any (fun x => match x with
      | .str s => s == key
      | _ => false))
  | .str s => .ok (hasSubstr key.data s.data)
  | _ => .error (.typeError "argument is not iterable")
where
  /-- Substring test on character lists. -/
  hasSubstr (needle hay : List Char) : Bool :=
    (List.range (hay.length + 1)).any
      (fun i => needle.isPrefixOf (hay.drop i))

/-- Python iteration over a JSON value: a list yields its elements, a
string its one-character substrings, a dict its keys; anything else
raises a TypeError. -/
def jelems (v : JVal) : Except PyErr (List JVal) :=
  match v with
  | .arr xs => .ok xs
  | .str s => .ok (s.data.map (fun c => .str (String.mk [c])))
  | .obj fs => .ok (fs.map (fun p => JVal.str p.1))
  | _ => .error (.typeError "value is not iterable")

/-- Numeric coercion of a JSON value for Python arithmetic: numbers
are themselves, booleans count as 0 or 1, anything else raises a
TypeError. -/
def asNum (v : JVal) : Except PyErr PyNum :=
  match v with
  | .num q => .ok q
  | .bool b => .ok (if b then PyNum.int 1 else PyNum.int 0)
  | _ => .error (.typeError "unsupported operand type")

/-- Python str.lower on the ASCII strings the tables use. -/
def strToLower (s : String) : String :=
  String.mk (s.data.map Char.toLower)

/-- The Python int constructor on a string: surrounding whitespace is
trimmed, an optional sign is followed by a nonempty ASCII-digit run;
anything else raises ValueError. -/
def pyIntOfString (s : String) : Except PyErr ℤ :=
  let t := ((s.data.dropWhile Char.isWhitespace).reverse.dropWhile
    Char.isWhitespace).reverse
  let neg := t.head? == some '-'
  let core := match t with
    | c :: rest => if c == '-' || c == '+' then rest else t
    | [] => t
  if !core.isEmpty && core.all Char.isDigit then
    let n : ℕ := core.foldl (fun acc c => acc * 10 + (c.toNat - 48)) 0
    .ok (if neg then -(n : ℤ) else (n : ℤ))
  else
    .error (.valueError "invalid literal for int with base 10")

/-- The Python int constructor applied to a JSON value. -/
def pyInt (v : JVal) : Except PyErr ℤ :=
  match v with
  | .str s => pyIntOfString s
  | .num q => .ok q.trunc
  | .bool b => .ok (if b then 1 else 0)
  | _ => .error (.typeError "int argument must be a string or a number")

/-- Worker for findallRuns: the state carries the class of the run
being built (digit run when the flag is true, letter run when false)
and its characters in reverse. -/
def runsAux : Option (Bool × List Char) → List Char → List String
  | none, [] => []
  | some (_, acc), [] => [String.mk acc.reverse]
  | none, c :: cs =>
    if c.isDigit then runsAux (some (true, [c])) cs
    else if c.isAlpha then runsAux (some (false, [c])) cs
    else runsAux none cs
  | some (d, acc), c :: cs =>
    if (d && c.isDigit) || (!d && c.isAlpha) then
      runsAux (some (d, c :: acc)) cs
    else
      String.mk acc.reverse ::
        (if c.isDigit then runsAux (some (true, [c])) cs
         else if c.isAlpha then runsAux (some (false, [c])) cs
         else runsAux none cs)

/-- re.findall on the pattern of one-or-more digits, alternated with
one-or-more ASCII letters (line 75): the maximal digit runs and letter
runs of the string in order; all other characters are skipped. -/
def findallRuns (s : String) : List String := runsAux none s.data

/-- _convert_value, lines 60-78: split the string into runs, unpack
exactly two (a ValueError otherwise, as for Python tuple unpacking),
look the lowercased second run up in the conversion table (a KeyError
when absent), convert the first run with int (a ValueError when it is
not numeric) and multiply. -/
def _convert_value (value : String)
    (conversion_dict : List (String × PyNum)) : Except PyErr PyNum :=
  match findallRuns value with
  | [num, unit] =>
    match conversion_dict.lookup (strToLower unit) with
    | some mult_factor =>
      match pyIntOfString num with
      | .ok n => .ok ((PyNum.int n).mul mult_factor)
      | .error e => .error e
    | none => .error (.keyError (strToLower unit))
  | runs =>
    .error (.valueError
      (if runs.length < 2 then "not enough values to unpack"
       else "too many values to unpack"))

/-- _convert_value as called on a JSON value: re.findall demands a
string argument and raises TypeError on anything else. -/
def convertJVal (v : JVal) (conversion_dict : List (String × PyNum)) :
    Except PyErr PyNum :=
  match v with
  | .str s => _convert_value s conversion_dict
  | _ => .error (.typeError "expected string or bytes-like object")

/-- The Python built-in round on a number (line 198): round to the
nearest integer, ties to the even neighbour. For a positive
denominator, the remainder r of the floor division is the fractional
part scaled by the denominator, so comparing 2r with the denominator
compares the fractional part with one half. -/
def pyRound (x : PyNum) : ℤ :=
  if 2 * (x.num - x.floor * x.den) < x.den then x.floor
  else if x.den < 2 * (x.num - x.floor * x.den) then x.floor + 1
  else if x.floor % 2 = 0 then x.floor else x.floor + 1

/-- The validity filter of lines 203-205: skip the job when jobname
and filesize are both falsy, or the second-resolution start and end
times coincide, or all five read metrics are falsy. -/
def skipJob (jobname filesize iops bw_kibps min_lat_ns max_lat_ns
    mean_lat_ns : JVal) (start_time_s end_time_s : ℤ) : Bool :=
  (jfalsy jobname && jfalsy filesize) ||
  decide (start_time_s = end_time_s) ||
  (jfalsy iops && jfalsy bw_kibps && jfalsy min_lat_ns &&
   jfalsy max_lat_ns && jfalsy mean_lat_ns)

/-- The lat_ns block of an emitted record. -/
structure LatNs where
  min : JVal
  max : JVal
  mean : JVal

/-- One emitted metrics dictionary (lines 215-224). Metric values are
carried through unchanged from the report, so they stay JVal; the
computed fields have their Python result types. -/
structure JobRecord where
  jobname : JVal
  filesize : PyNum
  num_threads : ℤ
  start_time : ℤ
  end_time : ℤ
  iops : JVal
  bw : JVal
  lat_ns : LatNs

/-- Lines 147-154: read the report-wide filesize (default the empty
string) and ramp time (default 0 ms, converted with the duration
table when present). -/
def resolveGlobals (fio_out : JVal) : Except PyErr (JVal × PyNum) := do
  let hasG ← jhasKey fio_out GLOBAL_OPTS
  if hasG then
    let g ← jget fio_out GLOBAL_OPTS
    let hasF ← jhasKey g FILESIZE
    let global_filesize ← if hasF then jget g FILESIZE
      else pure (JVal.str "")
    let hasR ← jhasKey g RAMPTIME
    let global_ramptime_ms ← if hasR then do
        let rv ← jget g RAMPTIME
        convertJVal rv RAMPTIME_CONVERSION
      else pure (PyNum.int 0)
    pure (global_filesize, global_ramptime_ms)
  else
    pure (JVal.str "", PyNum.int 0)

/-- Lines 170-188: per-job option resolution. numjobs defaults to the
string 1; filesize starts as the number 0 (line 160) and the ramp time
as 0 ms; each is replaced by the per-job option when present (the ramp
time being unit-converted); then a falsy filesize falls back to the
report-wide filesize and a zero ramp time to the report-wide ramp
time. -/
def resolveJobOpts (job : JVal) (global_filesize : JVal)
    (global_ramptime_ms : PyNum) : Except PyErr (JVal × JVal × PyNum) := do
  let hasOpts ← jhasKey job JOB_OPTS
  let resolved ←
    if hasOpts then do
      let opts ← jget job JOB_OPTS
      let hasN ← jhasKey opts NUMJOBS
      let numjobs ← if hasN then jget opts NUMJOBS
        else pure (JVal.str "1")
      let hasF ← jhasKey opts FILESIZE
      let filesize ← if hasF then jget opts FILESIZE
        else pure (JVal.num (PyNum.int 0))
      let hasR ← jhasKey opts RAMPTIME
      let ramptime_ms ← if hasR then do
          let rv ← jget opts RAMPTIME
          convertJVal rv RAMPTIME_CONVERSION
        else pure (PyNum.int 0)
      pure (numjobs, filesize, ramptime_ms)
    else
      pure (JVal.str "1", JVal.num (PyNum.int 0), PyNum.int 0)
  let numjobs := resolved.1
  let filesize := if jfalsy resolved.2.1 then global_filesize
    else resolved.2.1
  let ramptime_ms := if resolved.2.2.isZero then global_ramptime_ms
    else resolved.2.2
  pure (numjobs, filesize, ramptime_ms)

/-- Line 191: the start of a job is the running previous end time (in
milliseconds) when that is positive, and the report-wide timestamp_ms
otherwise (looked up lazily, so a missing timestamp only matters for
jobs that need it). -/
def startValue (fio_out : JVal) (prev_endtime_s : ℤ) :
    Except PyErr JVal :=
  if prev_endtime_s > 0 then
    pure (JVal.num ⟨prev_endtime_s * 1000, 1⟩)
  else
    jget fio_out TIMESTAMP_MS

/-- Lines 159-224, one iteration of the job loop: read the job fields,
resolve the options, reconstruct the time window, apply the validity
filter, and either skip (resetting the running end time to 0, lines
207-209) or emit a record (carrying its end time to the next
iteration, line 199). The returned pair is the new running end time
and the optional emitted record. -/
def extractJob (fio_out : JVal) (global_filesize : JVal)
    (global_ramptime_ms : PyNum) (prev_endtime_s : ℤ) (job : JVal) :
    Except PyErr (ℤ × Option JobRecord) := do
  let jobname ← jget job JOBNAME
  let job_read ← jget job READ
  let iops ← jget job_read IOPS
  let bw_kibps ← jget job_read BW
  let lat ← jget job_read LAT
  let min_lat_ns ← jget lat MIN
  let max_lat_ns ← jget lat MAX
  let mean_lat_ns ← jget lat MEAN
  let resolved ← resolveJobOpts job global_filesize global_ramptime_ms
  let numjobs := resolved.1
  let filesize := resolved.2.1
  let ramptime_ms := resolved.2.2
  let start_v ← startValue fio_out prev_endtime_s
  let runtime_v ← jget job_read RUNTIME
  let start_time_ms ← asNum start_v
  let runtime ← asNum runtime_v
  let end_time_ms := (start_time_ms.add runtime).add ramptime_ms
  let start_time_s := start_time_ms.div1000.floor
  let end_time_s := pyRound end_time_ms.div1000
  if skipJob jobname filesize iops bw_kibps min_lat_ns max_lat_ns
      mean_lat_ns start_time_s end_time_s then
    pure (0, none)
  else do
    let filesize_kb ← convertJVal filesize FILESIZE_CONVERSION
    let numjobs_i ← pyInt numjobs
    pure (end_time_s, some {
      jobname := jobname
      filesize := filesize_kb
      num_threads := numjobs_i
      start_time := start_time_s
      end_time := end_time_s
      iops := iops
      bw := bw_kibps
      lat_ns := { min := min_lat_ns, max := max_lat_ns,
                  mean := mean_lat_ns } })

/-- The job loop of lines 156-224 as a fold over the job list,
threading the running previous end time. -/
def extractLoop (fio_out : JVal) (global_filesize : JVal)
    (global_ramptime_ms : PyNum) :
    ℤ → List JVal → Except PyErr (List JobRecord)
  | _, [] => .ok []
  | prev, job :: rest => do
    let step ← extractJob fio_out global_filesize global_ramptime_ms
      prev job
    let tail ← extractLoop fio_out global_filesize global_ramptime_ms
      step.1 rest
    pure (match step.2 with
      | some r => r :: tail
      | none => tail)

/-- FioMetrics._extract_metrics, lines 118-229: reject a falsy
document, resolve the report-wide options, iterate over the jobs, and
reject an empty result list. -/
def _extract_metrics (fio_out : JVal) :
    Except PyErr (List JobRecord) := do
  if jfalsy fio_out then
    throw (.noValuesError "No data in json object")
  else
    let g ← resolveGlobals fio_out
    let jobs_v ← jget fio_out JOBS
    let jobs ← jelems jobs_v
    let all_jobs ← extractLoop fio_out g.1 g.2 0 jobs
    if all_jobs.isEmpty then
      throw (.noValuesError "No data could be extracted from file")
    else
      pure all_jobs

/-- The claim wording of option resolution for numjobs: look the
per-job options up first, fall back to the global options if absent
there, fall back to the default string 1 if absent in both. Stated
from the claim, for comparison with the code. -/
def claimResolvedNumjobs (jobOpts globalOpts : List (String × JVal)) :
    JVal :=
  match jobOpts.lookup NUMJOBS with
  | some v => v
  | none =>
    match globalOpts.lookup NUMJOBS with
    | some v => v
    | none => .str "1"

/-- The claim wording of option resolution for ramp_time: the per-job
value if present (converted), else the global value if present
(converted), else 0 ms. Stated from the claim, for comparison with
the code. -/
def claimResolvedRamptime (jobOpts globalOpts : List (String × JVal)) :
    Except PyErr PyNum :=
  match jobOpts.lookup RAMPTIME with
  | some v => convertJVal v RAMPTIME_CONVERSION
  | none =>
    match globalOpts.lookup RAMPTIME with
    | some v => convertJVal v RAMPTIME_CONVERSION
    | none => pure (PyNum.int 0)

/-- Amended description of numjobs resolution: the per-job option
alone, defaulting to the string 1; the global options are never
consulted. -/
def resolvedNumjobsAmended (jobOpts : List (String × JVal)) : JVal :=
  match jobOpts.lookup NUMJOBS with
  | some v => v
  | none => .str "1"

/-- Amended description of filesize resolution: the per-job option
when present and truthy, the global value otherwise (presence with a
falsy value, such as the empty string, also falls back). -/
def resolvedFilesizeAmended (jobOpts : List (String × JVal))
    (global_filesize : JVal) : JVal :=
  match jobOpts.lookup FILESIZE with
  | some v => if jfalsy v then global_filesize else v
  | none => global_filesize

/-- Amended description of ramp-time resolution: the converted per-job
option when present and nonzero, the global value otherwise (presence
with a value converting to 0 ms also falls back). -/
def resolvedRamptimeAmended (jobOpts : List (String × JVal))
    (global_ramptime_ms : PyNum) : Except PyErr PyNum :=
  match jobOpts.lookup RAMPTIME with
  | some v => (convertJVal v RAMPTIME_CONVERSION).map
      (fun r => if r.isZero then global_ramptime_ms else r)
  | none => pure global_ramptime_ms

/-- The read section of the report used by the spec example of §8:
iops 95.26093, bw 97547, runtime 60476 ms, lat_ns min/max/mean as
printed there. -/
def sampleRead : JVal := .obj [
  (IOPS, .num ⟨9526093, 100000⟩),
  (BW, .num ⟨97547, 1⟩),
  (LAT, .obj [(MIN, .num ⟨353377760, 1⟩), (MAX, .num ⟨1697519869, 1⟩),
              (MEAN, .num ⟨417754876774692, 1000000⟩)]),
  (RUNTIME, .num ⟨60476, 1⟩)]

/-- The report of the spec example of §8: global filesize 50M, global
ramp_time 10s, timestamp_ms 1653027155355, one job with numjobs 40
and no per-job filesize. -/
def c3report (name : String) : JVal := .obj [
  (TIMESTAMP_MS, .num ⟨1653027155355, 1⟩),
  (GLOBAL_OPTS, .obj [(RAMPTIME, .str "10s"), (FILESIZE, .str "50M")]),
  (JOBS, .arr [ .obj [
    (JOBNAME, .str name),
    (JOB_OPTS, .obj [(NUMJOBS, .str "40")]),
    (READ, sampleRead)]])]

/-- The record the spec example expects for c3report. -/
def c3record (name : String) : JobRecord := {
  jobname := .str name
  filesize := ⟨50000, 1⟩
  num_threads := 40
  start_time := 1653027155
  end_time := 1653027226
  iops := .num ⟨9526093, 100000⟩
  bw := .num ⟨97547, 1⟩
  lat_ns := { min := .num ⟨353377760, 1⟩, max := .num ⟨1697519869, 1⟩,
              mean := .num ⟨417754876774692, 1000000⟩ } }

/-- Per-job options exercising the C1 divergences: ramp_time present
as 0s, numjobs absent. -/
def c1jobOpts : List (String × JVal) := [(RAMPTIME, .str "0s")]

/-- Global options exercising the C1 divergences: numjobs present as
8, ramp_time present as 10s. -/
def c1globalOpts : List (String × JVal) :=
  [(NUMJOBS, .str "8"), (RAMPTIME, .str "10s")]

/-- A job carrying c1jobOpts. -/
def c1job : JVal := .obj [
  (JOBNAME, .str "j1"),
  (JOB_OPTS, .obj c1jobOpts),
  (READ, sampleRead)]

/-- A report whose only job is missing the read section. -/
def c2report : JVal := .obj [
  (TIMESTAMP_MS, .num ⟨1653027155355, 1⟩),
  (JOBS, .arr [ .obj [(JOBNAME, .str "j1")]])]

/-- A read section whose metrics are all zero. -/
def zeroRead : JVal := .obj [
  (IOPS, .num ⟨0, 1⟩),
  (BW, .num ⟨0, 1⟩),
  (LAT, .obj [(MIN, .num ⟨0, 1⟩), (MAX, .num ⟨0, 1⟩),
              (MEAN, .num ⟨0, 1⟩)]),
  (RUNTIME, .num ⟨60476, 1⟩)]

/-- A job with all-zero metrics, removed by the validity filter. -/
def c7job : JVal := .obj [
  (JOBNAME, .str "j1"),
  (READ, zeroRead)]

/-- A report with one job whose metrics are all zero, so that the
validity filter removes every job. -/
def c7report : JVal := .obj [
  (TIMESTAMP_MS, .num ⟨1653027155355, 1⟩),
  (JOBS, .arr [c7job])]

/-- A job with all-zero metrics, skipped by the filter. -/
def c5job1 : JVal := .obj [
  (JOBNAME, .str "zero_job"),
  (READ, zeroRead)]

/-- A valid job following the skipped one. -/
def c5job2 : JVal := .obj [
  (JOBNAME, .str "good_job"),
  (READ, sampleRead)]

/-- The record c5job2 produces when anchored to the report timestamp
of c5report with no ramp time. -/
def c5rec2 : JobRecord := {
  jobname := .str "good_job"
  filesize := ⟨50000, 1⟩
  num_threads := 1
  start_time := 1653027155
  end_time := 1653027216
  iops := .num ⟨9526093, 100000⟩
  bw := .num ⟨97547, 1⟩
  lat_ns := { min := .num ⟨353377760, 1⟩, max := .num ⟨1697519869, 1⟩,
              mean := .num ⟨417754876774692, 1000000⟩ } }

/-- The record c5job2 produces when chained to a previous end time of
5 seconds. -/
def c5rec2b : JobRecord := {
  jobname := .str "good_job"
  filesize := ⟨50000, 1⟩
  num_threads := 1
  start_time := 5
  end_time := 65
  iops := .num ⟨9526093, 100000⟩
  bw := .num ⟨97547, 1⟩
  lat_ns := { min := .num ⟨353377760, 1⟩, max := .num ⟨1697519869, 1⟩,
              mean := .num ⟨417754876774692, 1000000⟩ } }

/-- A report whose first job fails the validity filter (all metrics
zero) and whose second job is valid, exercising the re-anchoring of
the second job to the report timestamp. -/
def c5report : JVal := .obj [
  (TIMESTAMP_MS, .num ⟨1653027155355, 1⟩),
  (GLOBAL_OPTS, .obj [(FILESIZE, .str "50M")]),
  (JOBS, .arr [c5job1, c5job2])]

/-- A job with a nonempty jobname, nonzero metrics and no per-job
options. -/
def c10job : JVal := .obj [
  (JOBNAME, .str "j1"),
  (READ, sampleRead)]

/-- A report whose only job has a nonempty jobname, nonzero metrics, a
non-degenerate time window, and no filesize option anywhere, so the
resolved filesize is the empty string. -/
def c10report : JVal := .obj [
  (TIMESTAMP_MS, .num ⟨1653027155355, 1⟩),
  (JOBS, .arr [c10job])]

/-- Bind on a successful Except computation. -/
theorem ebind_ok {α β : Type} (a : α) (f : α → Except PyErr β) :
    (Except.ok a >>= f) = f a := rfl

/-- Bind on a failed Except computation. -/
theorem ebind_error {α β : Type} (e : PyErr) (f : α → Except PyErr β) :
    ((Except.error e : Except PyErr α) >>= f) = .error e := rfl

/-- Pure in the Except monad is ok. -/
theorem epure_eq {α : Type} (a : α) :
    (pure a : Except PyErr α) = .ok a := rfl

/-- A successful Except value never equals a failed one. -/
theorem eok_ne_error {α : Type} (a : α) (e : PyErr) :
    (Except.ok a : Except PyErr α) ≠ .error e := by
  intro h
  cases h

/-- The key test any uses in jhasKey agrees with lookup: the test is
true exactly when lookup finds the key. -/
theorem any_key_eq_lookup_isSome {β : Type} (k : String)
    (l : List (String × β)) :
    (l.any (fun p => p.1 == k)) = (l.lookup k).isSome := by
  induction l with
  | nil => rfl
  | cons p t ih =>
    by_cases hk : p.1 = k
    · simp [List.lookup, hk]
    · have h1 : (p.1 == k) = false := by simp [hk]
      have h2 : (k == p.1) = false := by simp [Ne.symm hk]
      simp [List.lookup, h1, h2, ih]

/-- Value of an embedded integer. -/
theorem PyNum.val_int (n : ℤ) : (PyNum.int n).val = (n : ℚ) := by
  simp [PyNum.val, PyNum.int]

/-- Addition of fractions is addition of values, for nonzero
denominators. -/
theorem PyNum.val_add (x y : PyNum) (hx : x.den ≠ 0) (hy : y.den ≠ 0) :
    (x.add y).val = x.val + y.val := by
  have hx' : (x.den : ℚ) ≠ 0 := Int.cast_ne_zero.mpr hx
  have hy' : (y.den : ℚ) ≠ 0 := Int.cast_ne_zero.mpr hy
  simp only [PyNum.val, PyNum.add]
  rw [div_add_div _ _ hx' hy']
  push_cast
  ring_nf

/-- Multiplication of fractions is multiplication of values. -/
theorem PyNum.val_mul (x y : PyNum) : (x.mul y).val = x.val * y.val := by
  simp only [PyNum.val, PyNum.mul]
  push_cast
  rw [div_mul_div_comm]

/-- Denominator of a sum of fractions. -/
theorem PyNum.add_den (x y : PyNum) : (x.add y).den = x.den * y.den := rfl

/-- Value of the division by 1000. -/
theorem PyNum.val_div1000 (x : PyNum) :
    x.div1000.val = x.val / 1000 := by
  simp only [PyNum.val, PyNum.div1000]
  push_cast
  rw [← div_div]

/-- The zero test reads the value, for a nonzero denominator. -/
theorem PyNum.isZero_iff (x : PyNum) (hx : x.den ≠ 0) :
    x.isZero = true ↔ x.val = 0 := by
  have hx' : (x.den : ℚ) ≠ 0 := Int.cast_ne_zero.mpr hx
  simp [PyNum.isZero, PyNum.val, div_eq_zero_iff, hx']

/-- The floor field computes the mathematical floor of the value, for
a positive denominator. -/
theorem PyNum.floor_eq_intFloor (x : PyNum) (hx : 0 < x.den) :
    x.floor = ⌊x.val⌋ := by
  have hd : x.den = ((x.den.toNat : ℕ) : ℤ) :=
    (Int.toNat_of_nonneg hx.le).symm
  rw [PyNum.floor, PyNum.val, hd]
  rw [show (((x.den.toNat : ℕ) : ℤ) : ℚ) = ((x.den.toNat : ℕ) : ℚ) by
    push_cast
    ring]
  rw [Rat.floor_intCast_div_natCast]

/-- Floor is monotone in the value. -/
theorem PyNum.floor_mono (x y : PyNum) (hx : 0 < x.den)
    (hy : 0 < y.den) (h : x.val ≤ y.val) : x.floor ≤ y.floor := by
  rw [PyNum.floor_eq_intFloor x hx, PyNum.floor_eq_intFloor y hy]
  exact Int.floor_le_floor h

/-- Rounding never goes below the floor. -/
theorem PyNum.floor_le_pyRound (x : PyNum) : x.floor ≤ pyRound x := by
  unfold pyRound
  split
  · exact le_refl _
  · split
    · omega
    · split
      · exact le_refl _
      · omega

/-- Key lookup via jhasKey on a dict agrees with List.lookup. -/
theorem jhasKey_obj (fs : List (String × JVal)) (k : String) :
    jhasKey (.obj fs) k = .ok ((fs.lookup k).isSome) := by
  simp [jhasKey, any_key_eq_lookup_isSome]

/-- C1 counterexample: with per-job ramp_time 0s and global ramp_time
10s, the claimed per-job precedence would resolve the ramp time to 0,
but the code resolves it to the global 10000 ms, because the fallback
tests the converted value for zero rather than testing presence; and
with numjobs 8 present only in the global options, the claimed global
fallback would resolve numjobs to 8, but the code resolves it to the
default 1, because numjobs never consults the global options. -/
theorem c1_counterexample :
    _convert_value "0s" RAMPTIME_CONVERSION = .ok ⟨0, 1⟩ ∧
    _convert_value "10s" RAMPTIME_CONVERSION = .ok ⟨10000, 1⟩ ∧
    resolveGlobals (.obj [(GLOBAL_OPTS, .obj c1globalOpts)]) =
      .ok (.str "", ⟨10000, 1⟩) ∧
    resolveJobOpts c1job (.str "") ⟨10000, 1⟩ =
      .ok (.str "1", .str "", ⟨10000, 1⟩) ∧
    claimResolvedNumjobs c1jobOpts c1globalOpts = .str "8" ∧
    claimResolvedRamptime c1jobOpts c1globalOpts = .ok ⟨0, 1⟩ ∧
    JVal.str "1" ≠ JVal.str "8" ∧
    PyNum.val ⟨10000, 1⟩ ≠ PyNum.val ⟨0, 1⟩ := by
  refine ⟨rfl, rfl, rfl, rfl, rfl, rfl, ?_, ?_⟩
  · intro h
    injection h with h1
    exact absurd h1 (by decide)
  · norm_num [PyNum.val]

set_option maxHeartbeats 1000000 in
/-- C1 amended: on a job whose job options block is a mapping opts,
the code resolves numjobs from the per-job options alone (defaulting
to the string 1, never consulting the global options), resolves
filesize to the per-job value only when it is present and truthy
(falling back to the global value when absent or falsy), and resolves
ramp_time to the converted per-job value only when it is nonzero
(falling back to the global value when absent or zero); on a job with
no job options block, all three fall back (numjobs to the default). -/
theorem c1_option_resolution_amended (opts : List (String × JVal))
    (global_filesize : JVal) (global_ramptime_ms : PyNum) :
    resolveJobOpts (.obj [(JOB_OPTS, .obj opts)]) global_filesize
      global_ramptime_ms =
    (resolvedRamptimeAmended opts global_ramptime_ms).map
      (fun r => (resolvedNumjobsAmended opts,
                 resolvedFilesizeAmended opts global_filesize, r)) ∧
    resolveJobOpts (.obj [(JOBNAME, .str "x")]) global_filesize
      global_ramptime_ms =
      .ok (.str "1", global_filesize, global_ramptime_ms) := by
  constructor
  · rcases hN : opts.lookup NUMJOBS with _ | nv <;>
    rcases hF : opts.lookup FILESIZE with _ | fv <;>
    rcases hR : opts.lookup RAMPTIME with _ | rv
    case none.none.none =>
      simp [resolveJobOpts, resolvedNumjobsAmended,
        resolvedFilesizeAmended, resolvedRamptimeAmended, jhasKey_obj,
        jget, hN, hF, hR, ebind_ok, ebind_error, epure_eq, Except.map,
        jfalsy, jtruthy, PyNum.isZero, PyNum.int]
    case none.none.some =>
      rcases hC : convertJVal rv RAMPTIME_CONVERSION with e | r <;>
      simp [resolveJobOpts, resolvedNumjobsAmended,
        resolvedFilesizeAmended, resolvedRamptimeAmended, jhasKey_obj,
        jget, hN, hF, hR, hC, ebind_ok, ebind_error, epure_eq,
        Except.map, jfalsy, jtruthy, PyNum.isZero, PyNum.int]
    case none.some.none =>
      simp [resolveJobOpts, resolvedNumjobsAmended,
        resolvedFilesizeAmended, resolvedRamptimeAmended, jhasKey_obj,
        jget, hN, hF, hR, ebind_ok, ebind_error, epure_eq, Except.map,
        jfalsy, jtruthy, PyNum.isZero, PyNum.int]
    case none.some.some =>
      rcases hC : convertJVal rv RAMPTIME_CONVERSION with e | r <;>
      simp [resolveJobOpts, resolvedNumjobsAmended,
        resolvedFilesizeAmended, resolvedRamptimeAmended, jhasKey_obj,
        jget, hN, hF, hR, hC, ebind_ok, ebind_error, epure_eq,
        Except.map, jfalsy, jtruthy, PyNum.isZero, PyNum.int]
    case some.none.none =>
      simp [resolveJobOpts, resolvedNumjobsAmended,
        resolvedFilesizeAmended, resolvedRamptimeAmended, jhasKey_obj,
        jget, hN, hF, hR, ebind_ok, ebind_error, epure_eq, Except.map,
        jfalsy, jtruthy, PyNum.isZero, PyNum.int]
    case some.none.some =>
      rcases hC : convertJVal rv RAMPTIME_CONVERSION with e | r <;>
      simp [resolveJobOpts, resolvedNumjobsAmended,
        resolvedFilesizeAmended, resolvedRamptimeAmended, jhasKey_obj,
        jget, hN, hF, hR, hC, ebind_ok, ebind_error, epure_eq,
        Except.map, jfalsy, jtruthy, PyNum.isZero, PyNum.int]
    case some.some.none =>
      simp [resolveJobOpts, resolvedNumjobsAmended,
        resolvedFilesizeAmended, resolvedRamptimeAmended, jhasKey_obj,
        jget, hN, hF, hR, ebind_ok, ebind_error, epure_eq, Except.map,
        jfalsy, jtruthy, PyNum.isZero, PyNum.int]
    case some.some.some =>
      rcases hC : convertJVal rv RAMPTIME_CONVERSION with e | r <;>
      simp [resolveJobOpts, resolvedNumjobsAmended,
        resolvedFilesizeAmended, resolvedRamptimeAmended, jhasKey_obj,
        jget, hN, hF, hR, hC, ebind_ok, ebind_error, epure_eq,
        Except.map, jfalsy, jtruthy, PyNum.isZero, PyNum.int]
  · rfl

/-- C3: on the report with global filesize 50M and ramp_time 10s,
timestamp_ms 1653027155355, and one job with numjobs 40, read runtime
60476, iops 95.26093, bw 97547 and the given lat_ns values, extraction
returns exactly one record: the jobname, filesize 50000, num_threads
40, start_time 1653027155, end_time 1653027226, and the read metrics
passed through unchanged. -/
theorem c3_good_report (name : String) :
    _extract_metrics (c3report name) = .ok [c3record name] := by
  cases name with
  | mk data =>
    cases data with
    | nil => rfl
    | cons c cs => rfl

/-- C4: the conversion of 500b returns the fraction 500/1000, whose
value one half is not an integer: the b multiplier 0.001 is applied
without any truncation of the result, so the emitted filesize is not
always an integer (the function docstring promises an Int). -/
theorem c4_filesize_not_truncated :
    _convert_value "500b" FILESIZE_CONVERSION = .ok ⟨500, 1000⟩ ∧
    PyNum.val ⟨500, 1000⟩ = 1/2 ∧
    ∀ z : ℤ, PyNum.val ⟨500, 1000⟩ ≠ (z : ℚ) := by
  refine ⟨rfl, by norm_num [PyNum.val], ?_⟩
  intro z h
  rw [show PyNum.val ⟨500, 1000⟩ = 1/2 by norm_num [PyNum.val]] at h
  have h2 : (2 : ℚ) * z = 1 := by
    rw [← h]
    norm_num
  have h3 : (2 : ℤ) * z = 1 := by exact_mod_cast h2
  omega

/-- C10: on a report whose only job has a nonempty jobname, nonzero
metrics and a nondegenerate window, but whose resolved filesize is the
empty string (no filesize option per-job or global), the job passes
the validity filter, the empty string reaches the unit converter, and
the whole extraction aborts with the unpacking ValueError instead of
skipping the job. -/
theorem c10_empty_filesize_aborts :
    resolveJobOpts c10job (JVal.str "") (PyNum.int 0) =
      .ok (.str "1", .str "", PyNum.int 0) ∧
    jtruthy (JVal.str "j1") = true ∧
    _extract_metrics c10report =
      .error (.valueError "not enough values to unpack") :=
  ⟨rfl, rfl, rfl⟩

/-- C2 counterexample: a report whose only job lacks the read section
makes the whole extraction fail with a KeyError, rather than treating
the missing section as zero values. -/
theorem c2_counterexample :
    _extract_metrics c2report = .error (.keyError "read") := rfl

/-- C2 amended: reading a job entry dereferences the read section
and its fields directly, so on a job that has a jobname, absence of
the read key, or of iops, bw or lat_ns inside a read object, or of
min, max or mean inside a lat_ns object, aborts the whole extraction
with a KeyError naming the missing key (the zero initialization on
line 160 is dead for these fields, and the per-job validity filter is
never reached for such a job). -/
theorem c2_missing_read_amended (fio_out global_filesize : JVal)
    (global_ramptime_ms : PyNum) (prev : ℤ)
    (fields : List (String × JVal)) (v : JVal)
    (hname : fields.lookup JOBNAME = some v) :
    (fields.lookup READ = none →
      extractJob fio_out global_filesize global_ramptime_ms prev
        (.obj fields) = .error (.keyError READ)) ∧
    (∀ rfields, fields.lookup READ = some (.obj rfields) →
      (rfields.lookup IOPS = none →
        extractJob fio_out global_filesize global_ramptime_ms prev
          (.obj fields) = .error (.keyError IOPS)) ∧
      (∀ iv, rfields.lookup IOPS = some iv →
        (rfields.lookup BW = none →
          extractJob fio_out global_filesize global_ramptime_ms prev
            (.obj fields) = .error (.keyError BW)) ∧
        (∀ bv, rfields.lookup BW = some bv →
          (rfields.lookup LAT = none →
            extractJob fio_out global_filesize global_ramptime_ms prev
              (.obj fields) = .error (.keyError LAT)) ∧
          (∀ lfields, rfields.lookup LAT = some (.obj lfields) →
            (lfields.lookup MIN = none →
              extractJob fio_out global_filesize global_ramptime_ms
                prev (.obj fields) = .error (.keyError MIN)) ∧
            (∀ mnv, lfields.lookup MIN = some mnv →
              (lfields.lookup MAX = none →
                extractJob fio_out global_filesize global_ramptime_ms
                  prev (.obj fields) = .error (.keyError MAX)) ∧
              (∀ mxv, lfields.lookup MAX = some mxv →
                lfields.lookup MEAN = none →
                extractJob fio_out global_filesize global_ramptime_ms
                  prev (.obj fields) =
                  .error (.keyError MEAN))))))) := by
  constructor
  · intro hread
    unfold extractJob
    rw [show jget (.obj fields) JOBNAME = .ok v by simp [jget, hname]]
    rw [ebind_ok]
    rw [show jget (.obj fields) READ = .error (.keyError READ) by
      simp [jget, hread]]
    rfl
  · intro rfields hread
    constructor
    · intro hiops
      unfold extractJob
      rw [show jget (.obj fields) JOBNAME = .ok v by simp [jget, hname]]
      rw [ebind_ok]
      rw [show jget (.obj fields) READ = .ok (.obj rfields) by
        simp [jget, hread]]
      rw [ebind_ok]
      rw [show jget (.obj rfields) IOPS = .error (.keyError IOPS) by
        simp [jget, hiops]]
      rfl
    · intro iv hiops
      constructor
      · intro hbw
        unfold extractJob
        rw [show jget (.obj fields) JOBNAME = .ok v by
          simp [jget, hname]]
        rw [ebind_ok]
        rw [show jget (.obj fields) READ = .ok (.obj rfields) by
          simp [jget, hread]]
        rw [ebind_ok]
        rw [show jget (.obj rfields) IOPS = .ok iv by
          simp [jget, hiops]]
        rw [ebind_ok]
        rw [show jget (.obj rfields) BW = .error (.keyError BW) by
          simp [jget, hbw]]
        rfl
      · intro bv hbw
        constructor
        · intro hlat
          unfold extractJob
          rw [show jget (.obj fields) JOBNAME = .ok v by
            simp [jget, hname]]
          rw [ebind_ok]
          rw [show jget (.obj fields) READ = .ok (.obj rfields) by
            simp [jget, hread]]
          rw [ebind_ok]
          rw [show jget (.obj rfields) IOPS = .ok iv by
            simp [jget, hiops]]
          rw [ebind_ok]
          rw [show jget (.obj rfields) BW = .ok bv by
            simp [jget, hbw]]
          rw [ebind_ok]
          rw [show jget (.obj rfields) LAT = .error (.keyError LAT) by
            simp [jget, hlat]]
          rfl
        · intro lfields hlat
          constructor
          · intro hmin
            unfold extractJob
            rw [show jget (.obj fields) JOBNAME = .ok v by
              simp [jget, hname]]
            rw [ebind_ok]
            rw [show jget (.obj fields) READ = .ok (.obj rfields) by
              simp [jget, hread]]
            rw [ebind_ok]
            rw [show jget (.obj rfields) IOPS = .ok iv by
              simp [jget, hiops]]
            rw [ebind_ok]
            rw [show jget (.obj rfields) BW = .ok bv by
              simp [jget, hbw]]
            rw [ebind_ok]
            rw [show jget (.obj rfields) LAT = .ok (.obj lfields) by
              simp [jget, hlat]]
            rw [ebind_ok]
            rw [show jget (.obj lfields) MIN =
              .error (.keyError MIN) by simp [jget, hmin]]
            rfl
          · intro mnv hmin
            constructor
            · intro hmax
              unfold extractJob
              rw [show jget (.obj fields) JOBNAME = .ok v by
                simp [jget, hname]]
              rw [ebind_ok]
              rw [show jget (.obj fields) READ = .ok (.obj rfields) by
                simp [jget, hread]]
              rw [ebind_ok]
              rw [show jget (.obj rfields) IOPS = .ok iv by
                simp [jget, hiops]]
              rw [ebind_ok]
              rw [show jget (.obj rfields) BW = .ok bv by
                simp [jget, hbw]]
              rw [ebind_ok]
              rw [show jget (.obj rfields) LAT = .ok (.obj lfields) by
                simp [jget, hlat]]
              rw [ebind_ok]
              rw [show jget (.obj lfields) MIN = .ok mnv by
                simp [jget, hmin]]
              rw [ebind_ok]
              rw [show jget (.obj lfields) MAX =
                .error (.keyError MAX) by simp [jget, hmax]]
              rfl
            · intro mxv hmax hmean
              unfold extractJob
              rw [show jget (.obj fields) JOBNAME = .ok v by
                simp [jget, hname]]
              rw [ebind_ok]
              rw [show jget (.obj fields) READ = .ok (.obj rfields) by
                simp [jget, hread]]
              rw [ebind_ok]
              rw [show jget (.obj rfields) IOPS = .ok iv by
                simp [jget, hiops]]
              rw [ebind_ok]
              rw [show jget (.obj rfields) BW = .ok bv by
                simp [jget, hbw]]
              rw [ebind_ok]
              rw [show jget (.obj rfields) LAT = .ok (.obj lfields) by
                simp [jget, hlat]]
              rw [ebind_ok]
              rw [show jget (.obj lfields) MIN = .ok mnv by
                simp [jget, hmin]]
              rw [ebind_ok]
              rw [show jget (.obj lfields) MAX = .ok mxv by
                simp [jget, hmax]]
              rw [ebind_ok]
              rw [show jget (.obj lfields) MEAN =
                .error (.keyError MEAN) by simp [jget, hmean]]
              rfl

/-- C2 amended, witness: all seven missing-key branches applied to
concrete jobs: no read, empty read, read without bw, read without
lat_ns, empty lat_ns, lat_ns without max, lat_ns without mean. -/
theorem c2_missing_read_amended_witness :
    extractJob c2report (.str "") (PyNum.int 0) 0
      (.obj [(JOBNAME, .str "j1")]) = .error (.keyError "read") ∧
    extractJob c2report (.str "") (PyNum.int 0) 0
      (.obj [(JOBNAME, .str "j1"), (READ, .obj [])]) =
      .error (.keyError "iops") ∧
    extractJob c2report (.str "") (PyNum.int 0) 0
      (.obj [(JOBNAME, .str "j1"),
             (READ, .obj [(IOPS, .num ⟨1, 1⟩)])]) =
      .error (.keyError "bw") ∧
    extractJob c2report (.str "") (PyNum.int 0) 0
      (.obj [(JOBNAME, .str "j1"),
             (READ, .obj [(IOPS, .num ⟨1, 1⟩), (BW, .num ⟨2, 1⟩)])]) =
      .error (.keyError "lat_ns") ∧
    extractJob c2report (.str "") (PyNum.int 0) 0
      (.obj [(JOBNAME, .str "j1"),
             (READ, .obj [(IOPS, .num ⟨1, 1⟩), (BW, .num ⟨2, 1⟩),
                          (LAT, .obj [])])]) =
      .error (.keyError "min") ∧
    extractJob c2report (.str "") (PyNum.int 0) 0
      (.obj [(JOBNAME, .str "j1"),
             (READ, .obj [(IOPS, .num ⟨1, 1⟩), (BW, .num ⟨2, 1⟩),
                          (LAT, .obj [(MIN, .num ⟨3, 1⟩)])])]) =
      .error (.keyError "max") ∧
    extractJob c2report (.str "") (PyNum.int 0) 0
      (.obj [(JOBNAME, .str "j1"),
             (READ, .obj [(IOPS, .num ⟨1, 1⟩), (BW, .num ⟨2, 1⟩),
                          (LAT, .obj [(MIN, .num ⟨3, 1⟩),
                                      (MAX, .num ⟨4, 1⟩)])])]) =
      .error (.keyError "mean") :=
  ⟨(c2_missing_read_amended c2report (.str "") (PyNum.int 0) 0
      [(JOBNAME, .str "j1")] (.str "j1") rfl).1 rfl,
   ((c2_missing_read_amended c2report (.str "") (PyNum.int 0) 0
      [(JOBNAME, .str "j1"), (READ, .obj [])] (.str "j1") rfl).2
      [] rfl).1 rfl,
   (((c2_missing_read_amended c2report (.str "") (PyNum.int 0) 0
      [(JOBNAME, .str "j1"), (READ, .obj [(IOPS, .num ⟨1, 1⟩)])]
      (.str "j1") rfl).2
      [(IOPS, .num ⟨1, 1⟩)] rfl).2 (.num ⟨1, 1⟩) rfl).1 rfl,
   ((((c2_missing_read_amended c2report (.str "") (PyNum.int 0) 0
      [(JOBNAME, .str "j1"),
       (READ, .obj [(IOPS, .num ⟨1, 1⟩), (BW, .num ⟨2, 1⟩)])]
      (.str "j1") rfl).2
      [(IOPS, .num ⟨1, 1⟩), (BW, .num ⟨2, 1⟩)] rfl).2
      (.num ⟨1, 1⟩) rfl).2 (.num ⟨2, 1⟩) rfl).1 rfl,
   (((((c2_missing_read_amended c2report (.str "") (PyNum.int 0) 0
      [(JOBNAME, .str "j1"),
       (READ, .obj [(IOPS, .num ⟨1, 1⟩), (BW, .num ⟨2, 1⟩),
                    (LAT, .obj [])])]
      (.str "j1") rfl).2
      [(IOPS, .num ⟨1, 1⟩), (BW, .num ⟨2, 1⟩), (LAT, .obj [])] rfl).2
      (.num ⟨1, 1⟩) rfl).2 (.num ⟨2, 1⟩) rfl).2 [] rfl).1 rfl,
   ((((((c2_missing_read_amended c2report (.str "") (PyNum.int 0) 0
      [(JOBNAME, .str "j1"),
       (READ, .obj [(IOPS, .num ⟨1, 1⟩), (BW, .num ⟨2, 1⟩),
                    (LAT, .obj [(MIN, .num ⟨3, 1⟩)])])]
      (.str "j1") rfl).2
      [(IOPS, .num ⟨1, 1⟩), (BW, .num ⟨2, 1⟩),
       (LAT, .obj [(MIN, .num ⟨3, 1⟩)])] rfl).2
      (.num ⟨1, 1⟩) rfl).2 (.num ⟨2, 1⟩) rfl).2
      [(MIN, .num ⟨3, 1⟩)] rfl).2 (.num ⟨3, 1⟩) rfl).1 rfl,
   (((((((c2_missing_read_amended c2report (.str "") (PyNum.int 0) 0
      [(JOBNAME, .str "j1"),
       (READ, .obj [(IOPS, .num ⟨1, 1⟩), (BW, .num ⟨2, 1⟩),
                    (LAT, .obj [(MIN, .num ⟨3, 1⟩),
                                (MAX, .num ⟨4, 1⟩)])])]
      (.str "j1") rfl).2
      [(IOPS, .num ⟨1, 1⟩), (BW, .num ⟨2, 1⟩),
       (LAT, .obj [(MIN, .num ⟨3, 1⟩), (MAX, .num ⟨4, 1⟩)])] rfl).2
      (.num ⟨1, 1⟩) rfl).2 (.num ⟨2, 1⟩) rfl).2
      [(MIN, .num ⟨3, 1⟩), (MAX, .num ⟨4, 1⟩)] rfl).2
      (.num ⟨3, 1⟩) rfl).2 (.num ⟨4, 1⟩) rfl) rfl⟩

/-- Throw in the Except monad is error. -/
theorem ethrow_eq {α : Type} (e : PyErr) :
    (throw e : Except PyErr α) = .error e := rfl

/-- Inversion of a successful bind: the first computation succeeded
and the continuation succeeded on its result. -/
theorem ebind_ok_inv {α β : Type} {m : Except PyErr α}
    {f : α → Except PyErr β} {b : β}
    (h : (m >>= f) = .ok b) : ∃ a, m = .ok a ∧ f a = .ok b := by
  cases m with
  | error e =>
    rw [ebind_error] at h
    exact Except.noConfusion h
  | ok a =>
    rw [ebind_ok] at h
    exact ⟨a, rfl, h⟩

/-- Inversion of a successful job iteration: every lookup succeeded,
and either the validity filter skipped the job (and the returned
running end time is 0 with no record) or it passed (and the returned
pair is the computed end time with the record assembled from the
computed fields). -/
theorem extractJob_ok_inv
    {fio gfs : JVal} {gr : PyNum} {prev p : ℤ} {job : JVal}
    {orec : Option JobRecord}
    (h : extractJob fio gfs gr prev job = .ok (p, orec)) :
    ∃ jobname job_read iops bw lat mn mx mean nj fs rp start_v
      runtime_v sq rt,
      jget job JOBNAME = .ok jobname ∧
      jget job READ = .ok job_read ∧
      jget job_read IOPS = .ok iops ∧
      jget job_read BW = .ok bw ∧
      jget job_read LAT = .ok lat ∧
      jget lat MIN = .ok mn ∧
      jget lat MAX = .ok mx ∧
      jget lat MEAN = .ok mean ∧
      resolveJobOpts job gfs gr = .ok (nj, fs, rp) ∧
      startValue fio prev = .ok start_v ∧
      jget job_read RUNTIME = .ok runtime_v ∧
      asNum start_v = .ok sq ∧
      asNum runtime_v = .ok rt ∧
      ((skipJob jobname fs iops bw mn mx mean
          sq.div1000.floor (pyRound ((sq.add rt).add rp).div1000) = true ∧
        p = 0 ∧ orec = none) ∨
       (skipJob jobname fs iops bw mn mx mean
          sq.div1000.floor (pyRound ((sq.add rt).add rp).div1000) = false ∧
        ∃ fkb nji,
          convertJVal fs FILESIZE_CONVERSION = .ok fkb ∧
          pyInt nj = .ok nji ∧
          p = pyRound ((sq.add rt).add rp).div1000 ∧
          orec = some {
            jobname := jobname, filesize := fkb, num_threads := nji,
            start_time := sq.div1000.floor,
            end_time := pyRound ((sq.add rt).add rp).div1000,
            iops := iops, bw := bw,
            lat_ns := { min := mn, max := mx, mean := mean } })) := by
  unfold extractJob at h
  obtain ⟨jobname, h1, h⟩ := ebind_ok_inv h
  obtain ⟨job_read, h2, h⟩ := ebind_ok_inv h
  obtain ⟨iops, h3, h⟩ := ebind_ok_inv h
  obtain ⟨bw, h4, h⟩ := ebind_ok_inv h
  obtain ⟨lat, h5, h⟩ := ebind_ok_inv h
  obtain ⟨mn, h6, h⟩ := ebind_ok_inv h
  obtain ⟨mx, h7, h⟩ := ebind_ok_inv h
  obtain ⟨mean, h8, h⟩ := ebind_ok_inv h
  obtain ⟨resolved, h9, h⟩ := ebind_ok_inv h
  obtain ⟨nj, fs, rp⟩ := resolved
  obtain ⟨start_v, h10, h⟩ := ebind_ok_inv h
  obtain ⟨runtime_v, h11, h⟩ := ebind_ok_inv h
  obtain ⟨sq, h12, h⟩ := ebind_ok_inv h
  obtain ⟨rt, h13, h⟩ := ebind_ok_inv h
  dsimp only at h
  refine ⟨jobname, job_read, iops, bw, lat, mn, mx, mean, nj, fs, rp,
    start_v, runtime_v, sq, rt,
    h1, h2, h3, h4, h5, h6, h7, h8, h9, h10, h11, h12, h13, ?_⟩
  by_cases hs : skipJob jobname fs iops bw mn mx mean
      sq.div1000.floor (pyRound ((sq.add rt).add rp).div1000) = true
  · rw [if_pos hs, epure_eq] at h
    injection h with h'
    obtain ⟨hp0, hor⟩ := Prod.ext_iff.mp h'
    exact Or.inl ⟨hs, hp0.symm, hor.symm⟩
  · rw [if_neg hs] at h
    obtain ⟨fkb, hc, h⟩ := ebind_ok_inv h
    obtain ⟨nji, hni, h⟩ := ebind_ok_inv h
    rw [epure_eq] at h
    injection h with h'
    obtain ⟨hp0, hor⟩ := Prod.ext_iff.mp h'
    exact Or.inr ⟨Bool.not_eq_true _ ▸ hs, fkb, nji, hc, hni,
      hp0.symm, hor.symm⟩

/-- C5: a skipped job resets the running previous end time to 0; an
emitted job sets it to its own end time; a job processed with a zero
running end time anchors its start time to the report timestamp
truncated to whole seconds; and a job processed with a positive
running end time prev starts at prev times 1000 ms, so its emitted
start time equals prev. -/
theorem c5_prev_endtime_reset (fio gfs : JVal) (gr : PyNum)
    (prev : ℤ) (job : JVal) :
    (∀ p, extractJob fio gfs gr prev job = .ok (p, none) → p = 0) ∧
    (∀ p r, extractJob fio gfs gr prev job = .ok (p, some r) →
      p = r.end_time) ∧
    (∀ p r ts q, prev = 0 →
      extractJob fio gfs gr prev job = .ok (p, some r) →
      jget fio TIMESTAMP_MS = .ok ts → asNum ts = .ok q →
      r.start_time = q.div1000.floor) ∧
    (∀ p r, 0 < prev →
      extractJob fio gfs gr prev job = .ok (p, some r) →
      r.start_time = prev) := by
  refine ⟨?_, ?_, ?_, ?_⟩
  · intro p h
    obtain ⟨_, _, _, _, _, _, _, _, _, _, _, _, _, _, _,
      _, _, _, _, _, _, _, _, _, _, _, _, _, hlast⟩ :=
      extractJob_ok_inv h
    rcases hlast with ⟨_, hp, _⟩ | ⟨_, _, _, _, _, _, hor⟩
    · exact hp
    · exact Option.noConfusion hor
  · intro p r h
    obtain ⟨_, _, _, _, _, _, _, _, _, _, _, _, _, _, _,
      _, _, _, _, _, _, _, _, _, _, _, _, _, hlast⟩ :=
      extractJob_ok_inv h
    rcases hlast with ⟨_, _, hor⟩ | ⟨_, _, _, _, _, hp, hor⟩
    · exact Option.noConfusion hor
    · injection hor with hr
      rw [hp, hr]
  · intro p r ts q hprev h hts hq
    obtain ⟨_, _, _, _, _, _, _, _, _, _, _, start_v, _, sq, _,
      _, _, _, _, _, _, _, _, _, h10, _, h12, _, hlast⟩ :=
      extractJob_ok_inv h
    subst hprev
    rw [startValue, if_neg (by omega), hts] at h10
    injection h10 with hsv
    subst hsv
    rw [h12] at hq
    injection hq with hq'
    subst hq'
    rcases hlast with ⟨_, _, hor⟩ | ⟨_, _, _, _, _, _, hor⟩
    · exact Option.noConfusion hor
    · injection hor with hr
      rw [hr]
  · intro p r hprev h
    obtain ⟨_, _, _, _, _, _, _, _, _, _, _, start_v, _, sq, _,
      _, _, _, _, _, _, _, _, _, h10, _, h12, _, hlast⟩ :=
      extractJob_ok_inv h
    rw [startValue, if_pos hprev, epure_eq] at h10
    injection h10 with hsv
    rw [← hsv] at h12
    rw [show asNum (JVal.num ⟨prev * 1000, 1⟩) =
      .ok ⟨prev * 1000, 1⟩ from rfl] at h12
    injection h12 with hsq
    rcases hlast with ⟨_, _, hor⟩ | ⟨_, _, _, _, _, _, hor⟩
    · exact Option.noConfusion hor
    · injection hor with hr
      rw [hr]
      show (PyNum.div1000 sq).floor = prev
      rw [← hsq]
      show (prev * 1000) / (1 * 1000) = prev
      rw [one_mul]
      exact Int.mul_ediv_cancel prev (by norm_num)

/-- C5 witness: on c5report, the all-zero first job is skipped with
the accumulator reset to 0; the second job processed with accumulator
0 anchors to the report timestamp truncated to seconds; processed
with accumulator 5 it starts at 5; and an emitted job hands its end
time to the accumulator. -/
theorem c5_prev_endtime_reset_witness :
    (0 : ℤ) = 0 ∧
    (1653027216 : ℤ) = c5rec2.end_time ∧
    c5rec2.start_time = (PyNum.div1000 ⟨1653027155355, 1⟩).floor ∧
    c5rec2b.start_time = 5 := by
  refine ⟨?_, ?_, ?_, ?_⟩
  · exact (c5_prev_endtime_reset c5report (.str "50M") (PyNum.int 0)
      0 c5job1).1 0 rfl
  · exact (c5_prev_endtime_reset c5report (.str "50M") (PyNum.int 0)
      0 c5job2).2.1 1653027216 c5rec2 rfl
  · exact (c5_prev_endtime_reset c5report (.str "50M") (PyNum.int 0)
      0 c5job2).2.2.1 1653027216 c5rec2 (.num ⟨1653027155355, 1⟩)
      ⟨1653027155355, 1⟩ rfl rfl rfl rfl
  · exact (c5_prev_endtime_reset c5report (.str "50M") (PyNum.int 0)
      5 c5job2).2.2.2 65 c5rec2b (by norm_num) rfl

/-- C7: extraction on a falsy document (the empty dict, null) always
fails with the Empty Data error carrying the report-level message; a
truthy report all of whose jobs are removed by the validity filter
fails with the Empty Data error carrying the extraction-level
message; and the two messages are distinct. -/
theorem c7_empty_data_errors :
    (∀ v, jtruthy v = false →
      _extract_metrics v =
        .error (.noValuesError "No data in json object")) ∧
    (∀ v gfs gr jv jobs, jtruthy v = true →
      resolveGlobals v = .ok (gfs, gr) →
      jget v JOBS = .ok jv →
      jelems jv = .ok jobs →
      extractLoop v gfs gr 0 jobs = .ok [] →
      _extract_metrics v =
        .error (.noValuesError "No data could be extracted from file")) ∧
    "No data in json object" ≠ "No data could be extracted from file" := by
  refine ⟨?_, ?_, by decide⟩
  · intro v hv
    unfold _extract_metrics
    rw [if_pos (by simp [jfalsy, hv])]
    rfl
  · intro v gfs gr jv jobs hv hg hjv hje hloop
    unfold _extract_metrics
    rw [if_neg (by simp [jfalsy, hv])]
    rw [hg, ebind_ok, hjv, ebind_ok, hje, ebind_ok, hloop, ebind_ok]
    rfl

/-- C7 witness: the first part applied to the null document, the
second applied to c7report, whose only job is removed by the filter. -/
theorem c7_empty_data_errors_witness :
    _extract_metrics .null =
      .error (.noValuesError "No data in json object") ∧
    _extract_metrics c7report =
      .error (.noValuesError "No data could be extracted from file") :=
  ⟨c7_empty_data_errors.1 .null rfl,
   c7_empty_data_errors.2.1 c7report (.str "") (PyNum.int 0)
     (.arr [c7job]) [c7job] rfl rfl rfl rfl rfl⟩

/-- C8 counterexample: the string 12 kb contains a character that is
neither a digit nor a letter, so by the claim it should fail with a
Malformed Value error; the code instead skips the space and happily
returns 12. -/
theorem c8_counterexample :
    ("12 kb".data.any (fun c => !(c.isDigit || c.isAlpha))) = true ∧
    _convert_value "12 kb" FILESIZE_CONVERSION = .ok ⟨12, 1⟩ :=
  ⟨rfl, rfl⟩

/-- A successful lookup returns the second component of some list
entry. -/
theorem lookup_mem {α β : Type} [BEq α] {l : List (α × β)} {k : α}
    {v : β} (h : l.lookup k = some v) : ∃ p, p ∈ l ∧ p.2 = v := by
  induction l with
  | nil => simp [List.lookup] at h
  | cons p t ih =>
    rw [List.lookup] at h
    cases hk : k == p.1 with
    | true =>
      rw [hk] at h
      injection h with h'
      exact ⟨p, List.mem_cons_self p t, h'⟩
    | false =>
      rw [hk] at h
      obtain ⟨q, hq, hv⟩ := ih h
      exact ⟨q, List.mem_cons_of_mem p hq, hv⟩

/-- Every multiplier in the file-size table is positive. -/
theorem filesize_mult_pos {u : String} {m : PyNum}
    (h : FILESIZE_CONVERSION.lookup u = some m) :
    0 < m.num ∧ 0 < m.den := by
  have hall : ∀ p ∈ FILESIZE_CONVERSION, 0 < p.2.num ∧ 0 < p.2.den := by
    decide
  obtain ⟨p, hp, hv⟩ := lookup_mem h
  exact hv ▸ hall p hp

/-- C8 amended: the error behaviour of the unit converter is governed
by the run decomposition alone: when the maximal digit/letter runs of
the string do not number exactly two, the conversion fails with the
unpacking ValueError; when they number exactly two and the lowercased
second run is not a table key, it fails with that KeyError; when the
second run is a table key, the result is the int conversion of the
first run (a ValueError when it is not numeric) mapped through the
multiplication. Characters that are neither digits nor letters are
skipped, and the two runs need not be in digits-then-letters order. -/
theorem c8_error_classification (s : String)
    (d : List (String × PyNum)) :
    ((findallRuns s).length ≠ 2 →
      _convert_value s d = .error (.valueError
        (if (findallRuns s).length < 2 then "not enough values to unpack"
         else "too many values to unpack"))) ∧
    (∀ r1 r2, findallRuns s = [r1, r2] →
      (d.lookup (strToLower r2) = none →
        _convert_value s d = .error (.keyError (strToLower r2))) ∧
      (∀ m, d.lookup (strToLower r2) = some m →
        _convert_value s d =
          (pyIntOfString r1).map (fun n => (PyNum.int n).mul m))) := by
  constructor
  · intro hlen
    unfold _convert_value
    rcases hf : findallRuns s with _ | ⟨a, _ | ⟨b, _ | ⟨c, t⟩⟩⟩
    · rfl
    · rfl
    · rw [hf] at hlen
      simp at hlen
    · rfl
  · intro r1 r2 hf
    constructor
    · intro hl
      unfold _convert_value
      rw [hf]
      dsimp only
      rw [hl]
    · intro m hm
      unfold _convert_value
      rw [hf]
      dsimp only
      rw [hm]
      rcases hp : pyIntOfString r1 with e | n <;> rfl

/-- C8 amended, witness: the three branches exercised concretely: an
empty string (no runs), an unknown unit z, and a known unit kb. -/
theorem c8_error_classification_witness :
    _convert_value "" FILESIZE_CONVERSION =
      .error (.valueError "not enough values to unpack") ∧
    _convert_value "5z" FILESIZE_CONVERSION = .error (.keyError "z") ∧
    _convert_value "7kb" FILESIZE_CONVERSION =
      (pyIntOfString "7").map (fun n => (PyNum.int n).mul ⟨1, 1⟩) :=
  ⟨(c8_error_classification "" FILESIZE_CONVERSION).1 (by decide),
   ((c8_error_classification "5z" FILESIZE_CONVERSION).2 "5" "z"
     rfl).1 rfl,
   ((c8_error_classification "7kb" FILESIZE_CONVERSION).2 "7" "kb"
     rfl).2 ⟨1, 1⟩ rfl⟩

/-- C9: for a fixed recognized file-size unit, conversion is monotone
in the numeric value: two valid size strings with the same unit run
and numeric runs parsing to n1 and n2 with n1 at most n2 convert to
values in the same order. -/
theorem c9_monotone (s1 s2 d1 d2 u : String) (n1 n2 : ℤ)
    (r1 r2 : PyNum)
    (h1 : findallRuns s1 = [d1, u]) (h2 : findallRuns s2 = [d2, u])
    (hp1 : pyIntOfString d1 = .ok n1) (hp2 : pyIntOfString d2 = .ok n2)
    (hle : n1 ≤ n2)
    (hc1 : _convert_value s1 FILESIZE_CONVERSION = .ok r1)
    (hc2 : _convert_value s2 FILESIZE_CONVERSION = .ok r2) :
    r1.val ≤ r2.val := by
  unfold _convert_value at hc1 hc2
  rw [h1] at hc1
  rw [h2] at hc2
  dsimp only at hc1 hc2
  rcases hm : FILESIZE_CONVERSION.lookup (strToLower u) with _ | m
  · rw [hm] at hc1
    exact Except.noConfusion hc1
  · rw [hm] at hc1
    rw [hm] at hc2
    dsimp only at hc1 hc2
    rw [hp1] at hc1
    rw [hp2] at hc2
    injection hc1 with e1
    injection hc2 with e2
    have hmpos := filesize_mult_pos hm
    have hval : (0 : ℚ) ≤ m.val := by
      unfold PyNum.val
      apply div_nonneg
      · exact_mod_cast hmpos.1.le
      · exact_mod_cast hmpos.2.le
    rw [← e1, ← e2, PyNum.val_mul, PyNum.val_mul, PyNum.val_int,
      PyNum.val_int]
    exact mul_le_mul_of_nonneg_right (by exact_mod_cast hle) hval

/-- C9 witness: the theorem applied to 3m and 5m. -/
theorem c9_monotone_witness :
    PyNum.val ⟨3000, 1⟩ ≤ PyNum.val ⟨5000, 1⟩ :=
  c9_monotone "3m" "5m" "3" "5" "m" 3 5 ⟨3000, 1⟩ ⟨5000, 1⟩
    rfl rfl rfl rfl (by norm_num) rfl rfl


/-- An emitted record never has equal start and end times: emission
means the validity filter, whose second disjunct tests exactly that
equality, returned false. -/
theorem extractJob_emit_ne
    {fio gfs : JVal} {gr : PyNum} {prev p : ℤ} {job : JVal}
    {r : JobRecord}
    (h : extractJob fio gfs gr prev job = .ok (p, some r)) :
    r.start_time ≠ r.end_time := by
  obtain ⟨_, _, _, _, _, _, _, _, _, _, _, _, _, _, _,
    _, _, _, _, _, _, _, _, _, _, _, _, _, hlast⟩ :=
    extractJob_ok_inv h
  rcases hlast with ⟨_, _, hor⟩ | ⟨hsk, _, _, _, _, _, hor⟩
  · exact Option.noConfusion hor
  · injection hor with hr
    rw [hr]
    simp only [skipJob, Bool.or_eq_false_iff,
      decide_eq_false_iff_not] at hsk
    exact hsk.1.2

/-- An emitted record has its end strictly after its start whenever
the runtime and the resolved ramp time are non-negative numbers and
the timestamp is a well-formed number: the end in milliseconds is the
start plus two non-negative terms, rounding never drops below the
floor, and the filter rules out equality. -/
theorem extractJob_emit_lt
    {fio gfs : JVal} {gr : PyNum} {prev p : ℤ} {job : JVal}
    {r : JobRecord}
    (h : extractJob fio gfs gr prev job = .ok (p, some r))
    (hramp : ∀ nj fs rp, resolveJobOpts job gfs gr = .ok (nj, fs, rp) →
      0 < rp.den ∧ 0 ≤ rp.val)
    (hrt : ∀ jr rv rt, jget job READ = .ok jr →
      jget jr RUNTIME = .ok rv → asNum rv = .ok rt →
      0 < rt.den ∧ 0 ≤ rt.val)
    (hts : ∀ ts q, jget fio TIMESTAMP_MS = .ok ts → asNum ts = .ok q →
      0 < q.den) :
    r.start_time < r.end_time := by
  obtain ⟨jobname, job_read, iops, bw, lat, mn, mx, mean, nj, fs, rp,
    start_v, runtime_v, sq, rt, h1, h2, h3, h4, h5, h6, h7, h8, h9,
    h10, h11, h12, h13, hlast⟩ := extractJob_ok_inv h
  have hrpp := hramp nj fs rp h9
  have hrtp := hrt job_read runtime_v rt h2 h11 h13
  have hsqd : 0 < sq.den := by
    rw [startValue] at h10
    by_cases hp : prev > 0
    · rw [if_pos hp, epure_eq] at h10
      injection h10 with hsv
      rw [← hsv] at h12
      injection h12 with hsq
      rw [← hsq]
      norm_num
    · rw [if_neg hp] at h10
      exact hts start_v sq h10 h12
  rcases hlast with ⟨_, _, hor⟩ | ⟨hsk, _, _, _, _, _, hor⟩
  · exact Option.noConfusion hor
  · injection hor with hr
    rw [hr]
    show sq.div1000.floor < pyRound ((sq.add rt).add rp).div1000
    have hne : sq.div1000.floor ≠ pyRound ((sq.add rt).add rp).div1000 := by
      simp only [skipJob, Bool.or_eq_false_iff,
        decide_eq_false_iff_not] at hsk
      exact hsk.1.2
    have hdsum : 0 < ((sq.add rt).add rp).den := by
      show 0 < (sq.den * rt.den) * rp.den
      exact mul_pos (mul_pos hsqd hrtp.1) hrpp.1
    have hle : sq.div1000.floor ≤ ((sq.add rt).add rp).div1000.floor := by
      apply PyNum.floor_mono
      · show 0 < sq.den * 1000
        positivity
      · show 0 < ((sq.add rt).add rp).den * 1000
        positivity
      · rw [PyNum.val_div1000, PyNum.val_div1000]
        have hv : sq.val ≤ ((sq.add rt).add rp).val := by
          rw [PyNum.val_add _ _
            (show (sq.add rt).den ≠ 0 from
              ne_of_gt (mul_pos hsqd hrtp.1)) (ne_of_gt hrpp.1)]
          rw [PyNum.val_add _ _ (ne_of_gt hsqd) (ne_of_gt hrtp.1)]
          linarith [hrtp.2, hrpp.2]
        gcongr
    exact (hle.trans (PyNum.floor_le_pyRound _)).lt_of_ne hne



/-- Every record in the output of the job loop was emitted by some
iteration on some job of the list. -/
theorem extractLoop_mem_inv {fio gfs : JVal} {gr : PyNum}
    (jobs : List JVal) :
    ∀ (prev : ℤ) (recs : List JobRecord),
    extractLoop fio gfs gr prev jobs = .ok recs →
    ∀ r ∈ recs, ∃ prev0 p job, job ∈ jobs ∧
      extractJob fio gfs gr prev0 job = .ok (p, some r) := by
  induction jobs with
  | nil =>
    intro prev recs h r hr
    simp only [extractLoop] at h
    injection h with h'
    rw [← h'] at hr
    exact absurd hr (List.not_mem_nil r)
  | cons job rest ih =>
    intro prev recs h r hr
    simp only [extractLoop] at h
    obtain ⟨step, hstep, h⟩ := ebind_ok_inv h
    obtain ⟨tail, htail, h⟩ := ebind_ok_inv h
    rw [epure_eq] at h
    injection h with h'
    obtain ⟨p, orec⟩ := step
    cases orec with
    | none =>
      dsimp only at h'
      rw [← h'] at hr
      obtain ⟨prev0, p0, j0, hj, hx⟩ := ih p tail htail r hr
      exact ⟨prev0, p0, j0, List.mem_cons_of_mem job hj, hx⟩
    | some r0 =>
      dsimp only at h'
      rw [← h'] at hr
      cases hr with
      | head => exact ⟨prev, p, job, List.mem_cons_self job rest, hstep⟩
      | tail _ hr' =>
        obtain ⟨prev0, p0, j0, hj, hx⟩ := ih p tail htail r hr'
        exact ⟨prev0, p0, j0, List.mem_cons_of_mem job hj, hx⟩

/-- C6: extraction never emits a record whose start time equals its
end time; and when every job runtime and resolved ramp time in the
report is a non-negative number and the timestamp is a number, every
emitted record has end_time strictly greater than start_time. -/
theorem c6_end_after_start (fio : JVal) (recs : List JobRecord)
    (hok : _extract_metrics fio = .ok recs) :
    (∀ r ∈ recs, r.start_time ≠ r.end_time) ∧
    ((∀ gfs gr jv jobs, resolveGlobals fio = .ok (gfs, gr) →
        jget fio JOBS = .ok jv → jelems jv = .ok jobs →
        ∀ job ∈ jobs,
          (∀ nj fs rp, resolveJobOpts job gfs gr = .ok (nj, fs, rp) →
            0 < rp.den ∧ 0 ≤ rp.val) ∧
          (∀ jr rv rt, jget job READ = .ok jr →
            jget jr RUNTIME = .ok rv → asNum rv = .ok rt →
            0 < rt.den ∧ 0 ≤ rt.val)) →
      (∀ ts q, jget fio TIMESTAMP_MS = .ok ts → asNum ts = .ok q →
        0 < q.den) →
      ∀ r ∈ recs, r.start_time < r.end_time) := by
  have hmain : ∃ gfs gr jv jobs,
      resolveGlobals fio = .ok (gfs, gr) ∧ jget fio JOBS = .ok jv ∧
      jelems jv = .ok jobs ∧ extractLoop fio gfs gr 0 jobs = .ok recs := by
    unfold _extract_metrics at hok
    by_cases hf : jfalsy fio = true
    · rw [if_pos hf, ethrow_eq] at hok
      exact Except.noConfusion hok
    · rw [if_neg hf] at hok
      obtain ⟨g, hg, hok⟩ := ebind_ok_inv hok
      obtain ⟨jv, hjv, hok⟩ := ebind_ok_inv hok
      obtain ⟨jobs, hje, hok⟩ := ebind_ok_inv hok
      obtain ⟨all_jobs, hloop, hok⟩ := ebind_ok_inv hok
      by_cases he : all_jobs.isEmpty
      · rw [if_pos he, ethrow_eq] at hok
        exact Except.noConfusion hok
      · rw [if_neg he, epure_eq] at hok
        injection hok with h'
        obtain ⟨gfs, gr⟩ := g
        exact ⟨gfs, gr, jv, jobs, hg, hjv, hje, h' ▸ hloop⟩
  obtain ⟨gfs, gr, jv, jobs, hg, hjv, hje, hloop⟩ := hmain
  constructor
  · intro r hr
    obtain ⟨prev0, p0, j0, hj0, hx⟩ :=
      extractLoop_mem_inv jobs 0 recs hloop r hr
    exact extractJob_emit_ne hx
  · intro hjobs hts r hr
    obtain ⟨prev0, p0, j0, hj0, hx⟩ :=
      extractLoop_mem_inv jobs 0 recs hloop r hr
    have hcond := hjobs gfs gr jv jobs hg hjv hje j0 hj0
    exact extractJob_emit_lt hx hcond.1 hcond.2 hts



/-- C6 witness: both parts applied to the spec example report, whose
single record has start 1653027155 and end 1653027226; the
non-negativity hypotheses are discharged by evaluation. -/
theorem c6_end_after_start_witness :
    (c3record "x").start_time ≠ (c3record "x").end_time ∧
    (c3record "x").start_time < (c3record "x").end_time := by
  have happ := c6_end_after_start (c3report "x") [c3record "x"] rfl
  refine ⟨happ.1 (c3record "x") (List.mem_cons_self _ _), ?_⟩
  refine happ.2 ?_ ?_ (c3record "x") (List.mem_cons_self _ _)
  · intro gfs gr jv jobs hg hjv hje job hjob
    rw [show resolveGlobals (c3report "x") =
      Except.ok (JVal.str "50M", (⟨10000, 1⟩ : PyNum)) from rfl] at hg
    injection hg with hg'
    obtain ⟨hg1, hg2⟩ := Prod.ext_iff.mp hg'
    subst hg1
    subst hg2
    rw [show jget (c3report "x") JOBS = Except.ok (JVal.arr [.obj
      [(JOBNAME, .str "x"), (JOB_OPTS, .obj [(NUMJOBS, .str "40")]),
       (READ, sampleRead)]]) from rfl] at hjv
    injection hjv with hjv'
    subst hjv'
    injection hje with hje'
    subst hje'
    cases hjob with
    | head =>
      constructor
      · intro nj fs rp hres
        rw [show resolveJobOpts (JVal.obj
          [(JOBNAME, .str "x"), (JOB_OPTS, .obj [(NUMJOBS, .str "40")]),
           (READ, sampleRead)]) (JVal.str "50M") ⟨10000, 1⟩ =
          Except.ok (JVal.str "40", JVal.str "50M",
            (⟨10000, 1⟩ : PyNum)) from rfl] at hres
        injection hres with hres'
        obtain ⟨hr1, hr23⟩ := Prod.ext_iff.mp hres'
        obtain ⟨hr2, hr3⟩ := Prod.ext_iff.mp hr23
        subst hr3
        exact ⟨by norm_num, by norm_num [PyNum.val]⟩
      · intro jr rv rt hjr hrv hrt
        rw [show jget (JVal.obj
          [(JOBNAME, .str "x"), (JOB_OPTS, .obj [(NUMJOBS, .str "40")]),
           (READ, sampleRead)]) READ = Except.ok sampleRead from rfl]
          at hjr
        injection hjr with hjr'
        subst hjr'
        rw [show jget sampleRead RUNTIME =
          Except.ok (JVal.num ⟨60476, 1⟩) from rfl] at hrv
        injection hrv with hrv'
        subst hrv'
        injection hrt with hrt'
        subst hrt'
        exact ⟨by norm_num, by norm_num [PyNum.val]⟩
    | tail _ hmem => exact absurd hmem (List.not_mem_nil job)
  · intro ts q hts hq
    rw [show jget (c3report "x") TIMESTAMP_MS =
      Except.ok (JVal.num ⟨1653027155355, 1⟩) from rfl] at hts
    injection hts with hts'
    subst hts'
    injection hq with hq'
    subst hq'
    norm_num


end FioMetrics
